import Mathlib

/-!
Shallow embedding of `src/node/node_value.hpp` (realm-js Node.js value
bridge, the `node::Value` template specializations over V8 values).

Modelling choices:

* A V8 `Local<Value>` is modelled by `HostValue`: one constructor per
  dynamic kind the bridge's predicates distinguish.  Buffer-like values
  (`ArrayBuffer`, `ArrayBufferView`, node `Buffer`) carry an id into an
  explicit `Heap`, so that aliasing (borrowed view vs. owned copy) and
  later mutation of backing storage are observable.  Node `Buffer` is kept
  a separate constructor from `ArrayBufferView`, matching the dispatch
  structure of `to_binary`, which treats `::node::Buffer::HasInstance` as a
  third representation.
* A C++ data pointer that may be `nullptr` is modelled by the `ptrNull`
  flag of a heap cell (V8 may hand out a null `Contents::Data()` for an
  empty buffer) and by the `BinPtr` type for results; `REALM_ASSERT` and a
  `memcpy` from a null source are modelled as explicit error outcomes.
* A C++ `double` is `EDouble`: NaN, signed infinities, or a finite value;
  `std::isnan` is `EDouble.isNaN`.  No arithmetic is needed.
* The engine coercions the bridge delegates to (`Nan::To<bool>`,
  `Nan::To<double>`, `Nan::To<v8::Object>`) are a parameter `Engine`,
  whose `Maybe`-style results are `Option`s.  The single engine fact the
  round-trip claims rest on — coercing a `Number` value to double yields
  the wrapped double — is the field `toNumber_number`.
* C++ exceptions become `Except CppError`; the two thrown exception values
  of the source are `invalidArgumentError` and `typeMismatchError`.
-/

/-- A C++ `double` for the purposes of this bridge: NaN is distinguishable
(via `isNaN`), infinities and finite values are carried opaquely. -/
inductive EDouble where
  | nan
  | inf (negative : Bool)
  | finite (q : Rat)
deriving DecidableEq

/-- Models `std::isnan`. -/
def EDouble.isNaN : EDouble → Bool
  | .nan => true
  | _ => false

/-- One engine-heap cell backing an `ArrayBuffer` / `Buffer`: its bytes, and
whether the engine reports a null data pointer for it (V8 permits a null
`Contents::Data()` only for empty buffers). -/
structure Buf where
  bytes : List Nat
  ptrNull : Bool
deriving DecidableEq

/-- The engine heap of buffer cells, indexed by buffer id. -/
structure Heap where
  bufs : List Buf
deriving DecidableEq

def Heap.get (h : Heap) (bid : Nat) : Buf := h.bufs.getD bid ⟨[], false⟩

def Heap.push (h : Heap) (b : Buf) : Heap := ⟨h.bufs ++ [b]⟩

/-- Well-formedness of the engine heap: a null data pointer is only ever
reported for an empty buffer (the V8 guarantee `REALM_ASSERT` relies on). -/
def Heap.WF (h : Heap) : Prop := ∀ b ∈ h.bufs, b.ptrNull = true → b.bytes = []

instance (h : Heap) : Decidable h.WF := List.decidableBAll _ h.bufs

/-- A V8 `Local<Value>` handle, one constructor per dynamic kind the
bridge's predicates distinguish.  `empty` is the empty handle
(`value.IsEmpty()`). -/
inductive HostValue where
  | empty
  | undefined
  | null
  | boolean (b : Bool)
  | number (d : EDouble)
  | str (s : String)
  | date
  | object
  | array
  | fn
  | arrayBuffer (bid : Nat)
  | arrayBufferView (bid : Nat) (byteOffset byteLength : Nat)
  | nodeBuffer (bid : Nat)
deriving DecidableEq

/-- The engine coercions the bridge delegates to.  `Option` is NAN's
`Maybe`: `none` is an empty `Maybe` (coercion failure).  `toNumber_number`
is the V8 guarantee that coercing a `Number` value yields the double it
wraps. -/
structure Engine where
  toBool : HostValue → Option Bool
  toNumber : HostValue → Option EDouble
  toObject : HostValue → Option HostValue
  toNumber_number : ∀ d, toNumber (.number d) = some d

namespace NodeValue

/-- `value->IsArray()`. -/
def is_array : HostValue → Bool
  | .array => true
  | _ => false

/-- `value->IsArrayBuffer()`. -/
def is_array_buffer : HostValue → Bool
  | .arrayBuffer _ => true
  | _ => false

/-- `value->IsArrayBufferView()`. -/
def is_array_buffer_view : HostValue → Bool
  | .arrayBufferView _ _ _ => true
  | _ => false

/-- `value->IsDate()`. -/
def is_date : HostValue → Bool
  | .date => true
  | _ => false

/-- `value->IsBoolean()`. -/
def is_boolean : HostValue → Bool
  | .boolean _ => true
  | _ => false

/-- `value->IsFunction()`; `is_constructor` and `is_function` share it. -/
def is_function : HostValue → Bool
  | .fn => true
  | _ => false

def is_constructor : HostValue → Bool := is_function

/-- `value->IsNull()`. -/
def is_null : HostValue → Bool
  | .null => true
  | _ => false

/-- `value->IsNumber()`. -/
def is_number : HostValue → Bool
  | .number _ => true
  | _ => false

/-- `value->IsObject()` (true for every object-shaped value). -/
def is_object : HostValue → Bool
  | .date => true
  | .object => true
  | .array => true
  | .fn => true
  | .arrayBuffer _ => true
  | .arrayBufferView _ _ _ => true
  | .nodeBuffer _ => true
  | _ => false

/-- `value->IsString()`. -/
def is_string : HostValue → Bool
  | .str _ => true
  | _ => false

/-- `value->IsUndefined()`. -/
def is_undefined : HostValue → Bool
  | .undefined => true
  | _ => false

/-- `::node::Buffer::HasInstance(value)`. -/
def Buffer.HasInstance : HostValue → Bool
  | .nodeBuffer _ => true
  | _ => false

/-- `node::Value::is_binary`: `is_array_buffer(value) ||
is_array_buffer_view(value) || ::node::Buffer::HasInstance(value)`. -/
def is_binary (v : HostValue) : Bool :=
  is_array_buffer v || is_array_buffer_view v || Buffer.HasInstance v

/-- `node::Value::is_valid`: `!value.IsEmpty()`. -/
def is_valid : HostValue → Bool
  | .empty => false
  | _ => true

/-- `node::Value::from_boolean`: `Nan::New(boolean)`. -/
def from_boolean (b : Bool) : HostValue := .boolean b

/-- `node::Value::from_null`: `Nan::Null()`. -/
def from_null : HostValue := .null

/-- `node::Value::from_number`: `Nan::New(number)` — wraps the double with
no validation. -/
def from_number (d : EDouble) : HostValue := .number d

/-- `node::Value::from_string`. -/
def from_string (s : String) : HostValue := .str s

/-- `node::Value::from_undefined`: `Nan::Undefined()`. -/
def from_undefined : HostValue := .undefined

/-- A realm `BinaryData`: a borrowed pointer + the bytes reachable through
it.  `ptrNull` records a null data pointer; `bytes` is meaningful only when
the pointer is non-null, and `size()` is `bytes.length`. -/
structure BinaryData where
  ptrNull : Bool
  bytes : List Nat
deriving DecidableEq

/-- Errors of the memory model: `nullRead` models the undefined behaviour
of `memcpy` reading through a null source pointer. -/
inductive MemError where
  | nullRead
deriving DecidableEq

/-- `node::Value::from_binary`:
```
v8::Local<v8::ArrayBuffer> buffer = v8::ArrayBuffer::New(isolate, data.size());
v8::ArrayBuffer::Contents contents = buffer->GetContents();
if (data.size()) { memcpy(contents.Data(), data.data(), data.size()); }
return buffer;
```
`ArrayBuffer::New` allocates a fresh zero-filled cell; `emptyNull` is the
engine's choice of whether an empty buffer's data pointer is null.  The
`memcpy` (which reads `data.data()`) runs only when `data.size()` is
non-zero, and is an error when the source pointer is null. -/
def from_binary (h : Heap) (emptyNull : Bool) (data : BinaryData) :
    Except MemError (Heap × HostValue) :=
  let size := data.bytes.length
  let fresh : Buf := ⟨List.replicate size 0, emptyNull && size == 0⟩
  if size = 0 then
    .ok (h.push fresh, .arrayBuffer h.bufs.length)
  else if data.ptrNull then
    .error .nullRead
  else
    .ok (h.push ⟨data.bytes, false⟩, .arrayBuffer h.bufs.length)

/-- C++ exceptions thrown by the bridge, plus a `REALM_ASSERT` failure. -/
inductive CppError where
  | invalid_argument (msg : String)
  | runtime_error (msg : String)
  | assertionFailed
deriving DecidableEq

/-- The exception `to_number` throws: `std::invalid_argument("Value not
convertible to a number.")` — the spec's `InvalidArgument`. -/
def invalidArgumentError : CppError :=
  .invalid_argument "Value not convertible to a number."

/-- The exception `to_binary` throws: `std::runtime_error("Can only convert
Buffer, ArrayBuffer, and ArrayBufferView objects to binary")` — the spec's
`TypeMismatch`. -/
def typeMismatchError : CppError :=
  .runtime_error "Can only convert Buffer, ArrayBuffer, and ArrayBufferView objects to binary"

/-- `node::Value::to_boolean`: `Nan::To<bool>(value).FromMaybe(false)`. -/
def to_boolean (E : Engine) (v : HostValue) : Bool :=
  (E.toBool v).getD false

/-- `node::Value::to_number`:
```
double number = Nan::To<double>(value).FromMaybe(NAN);
if (std::isnan(number)) { throw std::invalid_argument(...); }
return number;
```
-/
def to_number (E : Engine) (v : HostValue) : Except CppError EDouble :=
  let number := (E.toNumber v).getD .nan
  if number.isNaN then .error invalidArgumentError else .ok number

/-- A result data pointer of a binary extraction: null, a borrowed pointer
into heap cell `bid` at byte offset `off`, freshly `new[]`-allocated owned
memory holding `bytes` (non-null even for zero length), or the address of
the stack `placeholder` char (non-null, length-zero storage). -/
inductive BinPtr where
  | nullPtr
  | heapPtr (bid : Nat) (off : Nat)
  | freshPtr (bytes : List Nat)
  | placeholderPtr
deriving DecidableEq

def BinPtr.isNull : BinPtr → Bool
  | .nullPtr => true
  | _ => false

/-- A realm `OwnedBinaryData` (also standing in for the `OwnedData` that
`to_binary`'s view branch type-puns into it): a data pointer + length. -/
structure OwnedBinaryData where
  ptr : BinPtr
  length : Nat
deriving DecidableEq

/-- The bytes observable through an `OwnedBinaryData` under heap `h`:
`length` bytes read from its data pointer. -/
def readBinary (h : Heap) (r : OwnedBinaryData) : List Nat :=
  match r.ptr with
  | .nullPtr => []
  | .placeholderPtr => []
  | .heapPtr bid off => (((h.get bid).bytes).drop off).take r.length
  | .freshPtr bs => bs.take r.length

/-- The lambda inside `to_binary`:
```
auto make_owned_binary_data = [](const char* data, size_t length) {
    REALM_ASSERT(data || length == 0);
    char placeholder;
    return OwnedBinaryData(data ? data : &placeholder, length);
};
```
-/
def make_owned_binary_data (data : BinPtr) (length : Nat) :
    Except CppError OwnedBinaryData :=
  if data.isNull && !(length == 0) then .error .assertionFailed
  else .ok ⟨if data.isNull then .placeholderPtr else data, length⟩

/-- `value.As<v8::ArrayBuffer>()` / `value.As<v8::ArrayBufferView>()->Buffer()`
/ node `Buffer` storage: the heap cell id of a buffer-like value. -/
def bufferId : HostValue → Nat
  | .arrayBuffer bid => bid
  | .arrayBufferView bid _ _ => bid
  | .nodeBuffer bid => bid
  | _ => 0

/-- `array_buffer_view->ByteOffset()`. -/
def viewByteOffset : HostValue → Nat
  | .arrayBufferView _ off _ => off
  | _ => 0

/-- `array_buffer_view->ByteLength()`. -/
def viewByteLength : HostValue → Nat
  | .arrayBufferView _ _ len => len
  | _ => 0

/-- `node::Value::to_binary`, dispatching exactly as the source does:

1. `is_array_buffer` → `GetContents()`; borrowed pointer over the cell's
   storage (null data handled by `make_owned_binary_data`); zero-copy.
2. `is_array_buffer_view` → `new char[ByteLength()]` then
   `CopyContents(data, ByteLength())`, which copies the view's logical
   bytes (the backing cell's bytes from `ByteOffset`, at most `ByteLength`
   of them) and returns the count copied; the `OwnedData` holding them is
   type-punned to the returned `OwnedBinaryData`.
3. `::node::Buffer::HasInstance` → borrowed pointer over
   `Buffer::Data`/`Buffer::Length`; zero-copy.
4. otherwise → throws `typeMismatchError`. -/
def to_binary (h : Heap) (v : HostValue) : Except CppError OwnedBinaryData :=
  if is_array_buffer v then
    let contents := h.get (bufferId v)
    make_owned_binary_data
      (if contents.ptrNull then .nullPtr else .heapPtr (bufferId v) 0)
      contents.bytes.length
  else if is_array_buffer_view v then
    let backing := h.get (bufferId v)
    let copied := (backing.bytes.drop (viewByteOffset v)).take (viewByteLength v)
    .ok ⟨.freshPtr copied, copied.length⟩
  else if Buffer.HasInstance v then
    let buf := h.get (bufferId v)
    make_owned_binary_data
      (if buf.ptrNull then .nullPtr else .heapPtr (bufferId v) 0)
      buf.bytes.length
  else
    .error typeMismatchError

/-- `node::Value::to_object`:
`Nan::To<v8::Object>(value).FromMaybe(v8::Local<v8::Object>())` — an empty
handle on coercion failure. -/
def to_object (E : Engine) (v : HostValue) : HostValue :=
  (E.toObject v).getD .empty

/-- `node::Value::to_array`: `return to_object(isolate, value);`. -/
def to_array (E : Engine) (v : HostValue) : HostValue := to_object E v

/-- `node::Value::to_date`: `return to_object(isolate, value);`. -/
def to_date (E : Engine) (v : HostValue) : HostValue := to_object E v

/-- `node::Value::to_function`:
`value->IsFunction() ? Cast(value) : v8::Local<v8::Function>()`. -/
def to_function (v : HostValue) : HostValue :=
  if is_function v then v else .empty

/-- `node::Value::to_constructor`: `return to_function(isolate, value);`. -/
def to_constructor (v : HostValue) : HostValue := to_function v

end NodeValue

namespace NodeValue

/-- A concrete engine with JavaScript-like coercions, used to instantiate
the engine-parametric theorems on concrete values. -/
def v8Engine : Engine where
  toBool := fun v =>
    match v with
    | .empty => none
    | .undefined => some false
    | .null => some false
    | .boolean b => some b
    | .number .nan => some false
    | .number (.finite q) => some (decide (q ≠ 0))
    | .number (.inf _) => some true
    | .str s => some (decide (s ≠ ""))
    | _ => some true
  toNumber := fun v =>
    match v with
    | .number d => some d
    | .null => some (.finite 0)
    | .boolean b => some (.finite (if b then 1 else 0))
    | .undefined => some .nan
    | _ => none
  toObject := fun v =>
    match v with
    | .empty => none
    | .undefined => none
    | .null => none
    | v => some v
  toNumber_number := fun _ => rfl

/-- A heap with one backing buffer `[9,1,2,3,9]` (non-null data). -/
def sampleHeap : Heap := ⟨[⟨[9, 1, 2, 3, 9], false⟩]⟩

/-- A heap whose single buffer is empty with a null data pointer. -/
def nullEmptyHeap : Heap := ⟨[⟨[], true⟩]⟩

/-- The heap with no buffers. -/
def emptyHeap : Heap := ⟨[]⟩

theorem getD_concat (l : List Buf) (b d : Buf) : (l ++ [b]).getD l.length d = b := by
  induction l with
  | nil => rfl
  | cons hd tl ih =>
    simp only [List.getD, List.cons_append, List.length_cons, List.getElem?_cons_succ] at ih ⊢
    exact ih

theorem Heap.get_push (h : Heap) (b : Buf) : (h.push b).get h.bufs.length = b :=
  getD_concat h.bufs b _

theorem Heap.WF.get_empty_of_null (h : Heap) (hwf : h.WF) (bid : Nat)
    (hn : (h.get bid).ptrNull = true) : (h.get bid).bytes = [] := by
  simp only [Heap.get, List.getD] at hn ⊢
  cases e : h.bufs.get? bid with
  | none => simp
  | some c =>
    rw [e] at hn
    simp only [Option.getD_some] at hn ⊢
    exact hwf c (List.get?_mem e) hn

theorem make_owned_ok_nonnull (p : BinPtr) (n : Nat) (r : OwnedBinaryData)
    (hr : make_owned_binary_data p n = .ok r) : r.ptr.isNull = false := by
  unfold make_owned_binary_data at hr
  split at hr
  · exact Except.noConfusion hr
  · injection hr with hr
    subst hr
    cases p <;> simp [BinPtr.isNull]

end NodeValue

namespace NodeValue

/-- C7: for every host value, `is_binary` returns true iff at least one of
`is_array_buffer`, `is_array_buffer_view`, or the engine-specific raw-byte
check `::node::Buffer::HasInstance` returns true for it. -/
theorem is_binary_iff_disjunction (v : HostValue) :
    is_binary v = (is_array_buffer v || is_array_buffer_view v || Buffer.HasInstance v) :=
  rfl

/-- C8: for every engine context and host value, `to_array` and `to_date`
return exactly the result of `to_object`, and `to_constructor` returns
exactly the result of `to_function` — no array/date/constructor shape check
exists at this layer. -/
theorem object_extraction_aliases (E : Engine) (v : HostValue) :
    to_array E v = to_object E v ∧ to_date E v = to_object E v ∧
      to_constructor v = to_function v :=
  ⟨rfl, rfl, rfl⟩

/-- C9: `to_boolean` is total (it returns a `Bool`, never an error): when
the engine's truthiness coercion fails (`none`, an empty `Maybe`) the
result is `false`, and when it yields a boolean that boolean is returned. -/
theorem to_boolean_total (E : Engine) (v : HostValue) :
    (E.toBool v = none → to_boolean E v = false) ∧
      ∀ b, E.toBool v = some b → to_boolean E v = b := by
  constructor
  · intro hnone
    simp [to_boolean, hnone]
  · intro b hb
    simp [to_boolean, hb]

theorem to_boolean_total_witness :
    v8Engine.toBool .empty = none ∧ to_boolean v8Engine .empty = false :=
  ⟨rfl, (to_boolean_total v8Engine .empty).1 rfl⟩

/-- C3: `to_number` fails with `InvalidArgument` exactly when the engine's
numeric coercion result (`NAN` when the coercion's `Maybe` is empty) is
NaN; otherwise it returns the coerced double.  In particular a source that
is the native NaN number and a source whose coercion fails produce the
identical error. -/
theorem to_number_fails_iff_nan (E : Engine) (v : HostValue) :
    (((E.toNumber v).getD .nan).isNaN = true →
        to_number E v = .error invalidArgumentError) ∧
    (((E.toNumber v).getD .nan).isNaN = false →
        to_number E v = .ok ((E.toNumber v).getD .nan)) ∧
    to_number E (.number .nan) = .error invalidArgumentError ∧
    (E.toNumber v = none → to_number E v = .error invalidArgumentError) := by
  refine ⟨?_, ?_, ?_, ?_⟩
  · intro hnan
    simp [to_number, hnan]
  · intro hnan
    simp [to_number, hnan]
  · simp [to_number, E.toNumber_number, EDouble.isNaN]
  · intro hnone
    simp [to_number, hnone, EDouble.isNaN]

theorem to_number_fails_iff_nan_witness :
    ((v8Engine.toNumber (.str "abc")).getD .nan).isNaN = true ∧
      to_number v8Engine (.str "abc") = .error invalidArgumentError :=
  ⟨rfl, (to_number_fails_iff_nan v8Engine (.str "abc")).1 rfl⟩

/-- C4: for every engine, `to_number (from_number d) = d` for every
non-NaN double `d` (finite or infinite), `to_number (from_number NaN)`
fails with `InvalidArgument`, and `from_number` wraps any double — NaN
included — without validation. -/
theorem number_roundtrip (E : Engine) (d : EDouble) :
    (d.isNaN = false → to_number E (from_number d) = .ok d) ∧
      to_number E (from_number .nan) = .error invalidArgumentError ∧
      from_number d = .number d := by
  refine ⟨?_, ?_, rfl⟩
  · intro hd
    simp [to_number, from_number, E.toNumber_number, hd]
  · simp [to_number, from_number, E.toNumber_number, EDouble.isNaN]

theorem number_roundtrip_witness :
    (EDouble.finite 2).isNaN = false ∧
      to_number v8Engine (from_number (.finite 2)) = .ok (.finite 2) :=
  ⟨rfl, (number_roundtrip v8Engine (.finite 2)).1 rfl⟩

end NodeValue

namespace NodeValue

theorem make_owned_ok_of (p : BinPtr) (n : Nat) (hpn : p.isNull = false ∨ n = 0) :
    ∃ r, make_owned_binary_data p n = .ok r := by
  unfold make_owned_binary_data
  rcases hpn with hp | hn
  · simp [hp]
  · simp [hn]

/-- C1: `to_binary` throws the type-mismatch error exactly on host values
for which `is_binary` is false; whenever `is_binary` is true (any of the
three accepted representations, assuming the V8 heap invariant that null
data pointers occur only on empty buffers) it returns successfully. -/
theorem to_binary_fails_iff_not_binary (h : Heap) (v : HostValue) (hwf : h.WF) :
    (is_binary v = false → to_binary h v = .error typeMismatchError) ∧
      (is_binary v = true → ∃ r, to_binary h v = .ok r) := by
  constructor
  · intro hb
    have h1 : is_array_buffer v = false := by
      cases hab : is_array_buffer v
      · rfl
      · simp [is_binary, hab] at hb
    have h2 : is_array_buffer_view v = false := by
      cases hab : is_array_buffer_view v
      · rfl
      · simp [is_binary, hab] at hb
    have h3 : Buffer.HasInstance v = false := by
      cases hab : Buffer.HasInstance v
      · rfl
      · simp [is_binary, hab] at hb
    simp [to_binary, h1, h2, h3]
  · intro hb
    cases v
    case arrayBuffer bid =>
      cases hp : (h.get bid).ptrNull with
      | false =>
        have ⟨r, hr⟩ := make_owned_ok_of (.heapPtr bid 0) (h.get bid).bytes.length
          (Or.inl rfl)
        exact ⟨r, by simp [to_binary, is_array_buffer, bufferId, hp, hr]⟩
      | true =>
        have hbytes := Heap.WF.get_empty_of_null h hwf bid hp
        have ⟨r, hr⟩ := make_owned_ok_of .nullPtr (h.get bid).bytes.length
          (Or.inr (by simp [hbytes]))
        exact ⟨r, by simp [to_binary, is_array_buffer, bufferId, hp, hr]⟩
    case arrayBufferView bid off len =>
      exact ⟨⟨.freshPtr (((h.get bid).bytes.drop off).take len),
        (((h.get bid).bytes.drop off).take len).length⟩,
        by simp [to_binary, is_array_buffer, is_array_buffer_view,
          bufferId, viewByteOffset, viewByteLength]⟩
    case nodeBuffer bid =>
      cases hp : (h.get bid).ptrNull with
      | false =>
        have ⟨r, hr⟩ := make_owned_ok_of (.heapPtr bid 0) (h.get bid).bytes.length
          (Or.inl rfl)
        exact ⟨r, by simp [to_binary, is_array_buffer, is_array_buffer_view,
          Buffer.HasInstance, bufferId, hp, hr]⟩
      | true =>
        have hbytes := Heap.WF.get_empty_of_null h hwf bid hp
        have ⟨r, hr⟩ := make_owned_ok_of .nullPtr (h.get bid).bytes.length
          (Or.inr (by simp [hbytes]))
        exact ⟨r, by simp [to_binary, is_array_buffer, is_array_buffer_view,
          Buffer.HasInstance, bufferId, hp, hr]⟩
    all_goals exact Bool.noConfusion hb

theorem to_binary_fails_iff_not_binary_witness :
    Heap.WF emptyHeap ∧ is_binary .null = false ∧
      to_binary emptyHeap .null = .error typeMismatchError :=
  ⟨by decide, rfl, (to_binary_fails_iff_not_binary emptyHeap .null (by decide)).1 rfl⟩

end NodeValue

namespace NodeValue

/-- C6: every successful `to_binary` extraction — through any of the three
accepted paths, zero-length included — returns a result whose data pointer
is non-null: a null engine pointer is replaced by the address of the
length-zero `placeholder`, and the view path's `new char[]` allocation is
never null. -/
theorem to_binary_ok_nonnull (h : Heap) (v : HostValue) (r : OwnedBinaryData)
    (hok : to_binary h v = .ok r) : r.ptr.isNull = false := by
  unfold to_binary at hok
  split at hok
  · exact make_owned_ok_nonnull _ _ r hok
  · split at hok
    · injection hok with hok
      subst hok
      simp [BinPtr.isNull]
    · split at hok
      · exact make_owned_ok_nonnull _ _ r hok
      · exact Except.noConfusion hok

theorem to_binary_ok_nonnull_witness :
    to_binary nullEmptyHeap (.arrayBuffer 0) = .ok ⟨.placeholderPtr, 0⟩ ∧
      BinPtr.isNull BinPtr.placeholderPtr = false :=
  ⟨rfl, to_binary_ok_nonnull nullEmptyHeap (.arrayBuffer 0) ⟨.placeholderPtr, 0⟩ rfl⟩

/-- C5: extracting from a buffer-view value materialises an owned copy:
the result is freshly allocated (`freshPtr`), holds exactly the view's
logical bytes (the backing cell's bytes from `ByteOffset`, `ByteLength` of
them), and reading it under ANY later heap — in particular one in which
the backing buffer was mutated — still yields those same bytes.  The
spec's scenario instantiates `h` with backing `[9,1,2,3,9]`, `off = 1`,
`len = 3`, giving `[1,2,3]` under every `hMut`. -/
theorem to_binary_view_owned_copy (h hMut : Heap) (bid off len : Nat) :
    to_binary h (.arrayBufferView bid off len) =
        .ok ⟨.freshPtr (((h.get bid).bytes.drop off).take len),
          (((h.get bid).bytes.drop off).take len).length⟩ ∧
      readBinary hMut ⟨.freshPtr (((h.get bid).bytes.drop off).take len),
          (((h.get bid).bytes.drop off).take len).length⟩ =
        ((h.get bid).bytes.drop off).take len := by
  constructor
  · simp [to_binary, is_array_buffer, is_array_buffer_view, bufferId,
      viewByteOffset, viewByteLength]
  · simp [readBinary, List.take_length]

/-- C2: for every byte sequence (empty included) and every engine
allocation behaviour for empty buffers, `to_binary` after `from_binary`
succeeds, observes exactly the original bytes, and its data pointer is
non-null even for the empty sequence. -/
theorem binary_roundtrip (h : Heap) (emptyNull : Bool) (bytes : List Nat) :
    ∃ h2 v r, from_binary h emptyNull ⟨false, bytes⟩ = .ok (h2, v) ∧
      to_binary h2 v = .ok r ∧ readBinary h2 r = bytes ∧
      r.ptr.isNull = false ∧ r.length = bytes.length := by
  cases bytes with
  | nil =>
    cases emptyNull with
    | false =>
      refine ⟨h.push ⟨[], false⟩, .arrayBuffer h.bufs.length,
        ⟨.heapPtr h.bufs.length 0, 0⟩, rfl, ?_, ?_, rfl, rfl⟩
      · have hg := Heap.get_push h ⟨[], false⟩
        simp [to_binary, is_array_buffer, bufferId, hg, make_owned_binary_data,
          BinPtr.isNull]
      · simp [readBinary]
    | true =>
      refine ⟨h.push ⟨[], true⟩, .arrayBuffer h.bufs.length,
        ⟨.placeholderPtr, 0⟩, rfl, ?_, rfl, rfl, rfl⟩
      have hg := Heap.get_push h ⟨[], true⟩
      simp [to_binary, is_array_buffer, bufferId, hg, make_owned_binary_data,
        BinPtr.isNull]
  | cons b bs =>
    refine ⟨h.push ⟨b :: bs, false⟩, .arrayBuffer h.bufs.length,
      ⟨.heapPtr h.bufs.length 0, (b :: bs).length⟩, rfl, ?_, ?_, rfl, rfl⟩
    · have hg := Heap.get_push h ⟨b :: bs, false⟩
      simp [to_binary, is_array_buffer, bufferId, hg, make_owned_binary_data,
        BinPtr.isNull]
    · have hg := Heap.get_push h ⟨b :: bs, false⟩
      simp [readBinary, hg, List.take_length]

/-- C10: when the source view's length is zero, `from_binary` succeeds
without ever reading through the source's data pointer (the `memcpy` is
guarded by `data.size()`): even a source with a NULL data pointer —
`data.ptrNull` is unconstrained here — yields a fresh zero-length
`ArrayBuffer` cell. -/
theorem from_binary_zero_length_no_read (h : Heap) (emptyNull : Bool)
    (data : BinaryData) (hlen : data.bytes = []) :
    ∃ h2 bid, from_binary h emptyNull data = .ok (h2, .arrayBuffer bid) ∧
      (h2.get bid).bytes = [] := by
  obtain ⟨pn, bts⟩ := data
  simp only at hlen
  subst hlen
  refine ⟨h.push ⟨[], emptyNull && true⟩, h.bufs.length, rfl, ?_⟩
  rw [Heap.get_push]

theorem from_binary_zero_length_no_read_witness :
    (BinaryData.mk true []).bytes = [] ∧
      ∃ h2 bid, from_binary emptyHeap true ⟨true, []⟩ = .ok (h2, .arrayBuffer bid) ∧
        (h2.get bid).bytes = [] :=
  ⟨rfl, from_binary_zero_length_no_read emptyHeap true ⟨true, []⟩ rfl⟩

end NodeValue
